import Mathlib

/-!
# Verification of the `sw.js` cache router (ramadan-lockscreen)

A shallow embedding of the service worker in `src/sw.js`: the install
handler (precache), the activate handler (old-generation cleanup), and the
fetch router with its four caching tiers plus the analytics bypass.

The cache storage (`caches`) is modelled as an association list of named
generations, each an association list from request identity to stored
response.  Every handler is modelled as a pure function that, besides its
result and the updated storage, produces a `trace`: the list of primitive
cache/network operations in the order the handler's promise chains issue
them, following the JavaScript execution order of the source
(a `.then` continuation runs only after the awaited operation settles; a
non-awaited store update still eventually runs, after the fetch settles).
The network is an oracle `net : Request → Option Response`; `none` means
the fetch promise rejects.
-/

/-- A request, identified by the parsed pieces of its URL that the router
inspects (`url.hostname`, `url.pathname`).  Request identity for the cache
is the whole value. -/
structure Request where
  hostname : String
  pathname : String
  deriving DecidableEq, Repr

/-- A stored/network response.  The router never inspects it (no status
check anywhere in `sw.js`); `clone()` is modelled as the value itself. -/
structure Response where
  status : Nat
  body : String
  deriving DecidableEq, Repr

/-- One cache generation: entries keyed by request identity. -/
abbrev CacheObj := List (Request × Response)

/-- The whole `caches` storage: named generations, in creation order. -/
abbrev CacheStorage := List (String × CacheObj)

/-- `cache.match(request)` within one generation: first entry whose key
equals the request. -/
def matchReq : CacheObj → Request → Option Response
  | [], _ => none
  | (r0, p0) :: rest, r => if r0 = r then some p0 else matchReq rest r

/-- `caches.match(request)`: searches every generation, in order, and
returns the first hit (this is the cross-generation lookup the router
uses in every tier). -/
def cachesMatch : CacheStorage → Request → Option Response
  | [], _ => none
  | (_, c0) :: rest, r =>
    match matchReq c0 r with
    | some p => some p
    | none => cachesMatch rest r

/-- `cache.put(request, response)`: overwrite the entry for the request,
appending if absent. -/
def putEntry : CacheObj → Request → Response → CacheObj
  | [], r, p => [(r, p)]
  | (r0, p0) :: rest, r, p =>
    if r0 = r then (r, p) :: rest else (r0, p0) :: putEntry rest r p

/-- `caches.open(name).then(cache => cache.put(request, response))`:
update the generation with that name (creating it, at the end, if
absent). -/
def cachePutNamed : CacheStorage → String → Request → Response → CacheStorage
  | [], name, r, p => [(name, [(r, p)])]
  | (n0, c0) :: rest, name, r, p =>
    if n0 = name then (n0, putEntry c0 r p) :: rest
    else (n0, c0) :: cachePutNamed rest name r p

/-- Lookup restricted to the generation with the given name (used to state
which generation a write landed in). -/
def namedLookup : CacheStorage → String → Request → Option Response
  | [], _, _ => none
  | (n0, c0) :: rest, name, r =>
    if n0 = name then matchReq c0 r else namedLookup rest name r

/-- `caches.open(name)` alone: ensure a generation with that name exists. -/
def cachesOpen : CacheStorage → String → CacheStorage
  | [], name => [(name, [])]
  | (n0, c0) :: rest, name =>
    if n0 = name then (n0, c0) :: rest else (n0, c0) :: cachesOpen rest name

/-- `pre.isPrefixOf l` on char lists, executable (model of the prefix test
underlying `String.prototype.endsWith` after reversal). -/
def charsPrefix : List Char → List Char → Bool
  | [], _ => true
  | _ :: _, [] => false
  | p :: ps, c :: cs => p == c && charsPrefix ps cs

/-- Model of JavaScript `s.endsWith(suffix)`. -/
def strEndsWith (s suffix : String) : Bool :=
  charsPrefix suffix.data.reverse s.data.reverse

/-- Does `sub` occur somewhere in `l`? -/
def charsOccur (sub : List Char) : List Char → Bool
  | [] => sub.isEmpty
  | c :: rest => charsPrefix sub (c :: rest) || charsOccur sub rest

/-- Model of JavaScript `s.includes(sub)`. -/
def strIncludes (s sub : String) : Bool :=
  charsOccur sub.data s.data

/-- `const CACHE_NAME = 'salahdaily-v1'` -/
def CACHE_NAME : String := "salahdaily-v1"

/-- `const PRECACHE_URLS = [...]` (the relative URL strings, verbatim). -/
def PRECACHE_URLS : List String :=
  ["./",
   "./index.html",
   "./masjid.html",
   "./salahdaily_icon.png",
   "./favicon.ico",
   "./icons/icon-192.png",
   "./icons/icon-512.png",
   "./icons/icon-maskable-192.png",
   "./icons/icon-maskable-512.png",
   "./icons/apple-touch-icon.png"]

/-- What the promise passed to `event.respondWith` settles to (or, for the
analytics bypass, the absence of any `respondWith` call). -/
inductive FetchOutcome where
  /-- The handler returned without calling `respondWith`: the browser's
  default network handling applies verbatim, failures included. -/
  | passThrough
  /-- The promise resolved with a response. -/
  | ok (resp : Response)
  /-- The promise resolved with `undefined` (e.g. a `caches.match` miss
  used as a fallback value): no response value reaches the caller. -/
  | noResponse
  /-- The promise rejected: the caller sees an error. -/
  | rejected
  deriving DecidableEq, Repr

/-- Primitive operations of one fetch handling, in issue order. -/
inductive Event where
  /-- `caches.match(request)` is issued. -/
  | cacheMatchIssued (r : Request)
  /-- The `caches.match` promise settles, with its result. -/
  | cacheMatchSettled (r : Request) (res : Option Response)
  /-- `fetch(request)` is issued. -/
  | fetchIssued (r : Request)
  /-- The `fetch` promise settles (`none` = rejected). -/
  | fetchSettled (r : Request) (res : Option Response)
  /-- `caches.open(name)` is issued (start of a store update). -/
  | cacheOpen (name : String)
  /-- `cache.put(request, response)` runs against the named generation. -/
  | cachePut (name : String) (r : Request) (resp : Response)
  /-- The promise given to `respondWith` settles with this outcome. -/
  | respond (out : FetchOutcome)
  deriving DecidableEq, Repr

/-- Result of one intercepted request: the caller-visible outcome, the
operation trace, and the storage after all spawned tasks have run. -/
structure HandlerResult where
  outcome : FetchOutcome
  trace : List Event
  store : CacheStorage
  deriving DecidableEq, Repr

/-- Tier 2, `fonts.gstatic.com` (cache first, immutable):
`caches.match` first; on a hit, respond with it (no fetch at all); on a
miss, `fetch`, and on resolution store a clone (detached
`caches.open(CACHE_NAME).then(put)`) and respond with the response.
There is no `.catch`: a rejected fetch rejects the responded promise. -/
def cacheFirstTier (req : Request) (s : CacheStorage)
    (net : Request → Option Response) : HandlerResult :=
  let cached := cachesMatch s req
  let pre : List Event := [.cacheMatchIssued req, .cacheMatchSettled req cached]
  match cached with
  | some c => ⟨.ok c, pre ++ [.respond (.ok c)], s⟩
  | none =>
    match net req with
    | some resp =>
      ⟨.ok resp,
       pre ++ [.fetchIssued req, .fetchSettled req (some resp),
               .cacheOpen CACHE_NAME, .cachePut CACHE_NAME req resp,
               .respond (.ok resp)],
       cachePutNamed s CACHE_NAME req resp⟩
    | none =>
      ⟨.rejected,
       pre ++ [.fetchIssued req, .fetchSettled req none, .respond .rejected],
       s⟩

/-- Tier 3, `fonts.googleapis.com` (stale while revalidate):
`caches.match` first; its continuation issues `fetch` (so the fetch starts
only after the lookup settles), then returns `cached || fetchPromise`.
On a hit the handler responds with the cached value before the fetch
settles; the fetch's store update runs detached.  There is no `.catch` on
`fetchPromise`: on a miss a rejected fetch rejects the responded
promise. -/
def swrCssTier (req : Request) (s : CacheStorage)
    (net : Request → Option Response) : HandlerResult :=
  let cached := cachesMatch s req
  let pre : List Event :=
    [.cacheMatchIssued req, .cacheMatchSettled req cached, .fetchIssued req]
  match cached, net req with
  | some c, some resp =>
    ⟨.ok c,
     pre ++ [.respond (.ok c), .fetchSettled req (some resp),
             .cacheOpen CACHE_NAME, .cachePut CACHE_NAME req resp],
     cachePutNamed s CACHE_NAME req resp⟩
  | some c, none =>
    ⟨.ok c, pre ++ [.respond (.ok c), .fetchSettled req none], s⟩
  | none, some resp =>
    ⟨.ok resp,
     pre ++ [.fetchSettled req (some resp), .cacheOpen CACHE_NAME,
             .cachePut CACHE_NAME req resp, .respond (.ok resp)],
     cachePutNamed s CACHE_NAME req resp⟩
  | none, none =>
    ⟨.rejected, pre ++ [.fetchSettled req none, .respond .rejected], s⟩

/-- Tier 4, `.csv` paths and `/latest/` paths (network first with cache
fallback): `fetch` first; on resolution store a clone and respond with the
response; on rejection (`.catch`) respond with `caches.match(request)`,
which may itself be a miss (`undefined`). -/
def networkFirstTier (req : Request) (s : CacheStorage)
    (net : Request → Option Response) : HandlerResult :=
  match net req with
  | some resp =>
    ⟨.ok resp,
     [.fetchIssued req, .fetchSettled req (some resp),
      .cacheOpen CACHE_NAME, .cachePut CACHE_NAME req resp,
      .respond (.ok resp)],
     cachePutNamed s CACHE_NAME req resp⟩
  | none =>
    let cached := cachesMatch s req
    match cached with
    | some c =>
      ⟨.ok c,
       [.fetchIssued req, .fetchSettled req none,
        .cacheMatchIssued req, .cacheMatchSettled req (some c),
        .respond (.ok c)],
       s⟩
    | none =>
      ⟨.noResponse,
       [.fetchIssued req, .fetchSettled req none,
        .cacheMatchIssued req, .cacheMatchSettled req none,
        .respond .noResponse],
       s⟩

/-- Tier 5, everything else (stale while revalidate with swallow):
like the stylesheet tier, but `fetchPromise` carries
`.catch(() => cached)`, so on a miss a rejected fetch resolves with the
(absent) cached value instead of rejecting. -/
def swrDefaultTier (req : Request) (s : CacheStorage)
    (net : Request → Option Response) : HandlerResult :=
  let cached := cachesMatch s req
  let pre : List Event :=
    [.cacheMatchIssued req, .cacheMatchSettled req cached, .fetchIssued req]
  match cached, net req with
  | some c, some resp =>
    ⟨.ok c,
     pre ++ [.respond (.ok c), .fetchSettled req (some resp),
             .cacheOpen CACHE_NAME, .cachePut CACHE_NAME req resp],
     cachePutNamed s CACHE_NAME req resp⟩
  | some c, none =>
    ⟨.ok c, pre ++ [.respond (.ok c), .fetchSettled req none], s⟩
  | none, some resp =>
    ⟨.ok resp,
     pre ++ [.fetchSettled req (some resp), .cacheOpen CACHE_NAME,
             .cachePut CACHE_NAME req resp, .respond (.ok resp)],
     cachePutNamed s CACHE_NAME req resp⟩
  | none, none =>
    ⟨.noResponse, pre ++ [.fetchSettled req none, .respond .noResponse], s⟩

/-- The fetch listener: classify by URL and dispatch, in the source's
precedence order (analytics bypass, `fonts.gstatic.com`,
`fonts.googleapis.com`, `.csv` / `/latest/`, default). -/
def handleFetch (req : Request) (s : CacheStorage)
    (net : Request → Option Response) : HandlerResult :=
  if req.hostname == "gc.zgo.at" || strEndsWith req.hostname ".goatcounter.com" then
    ⟨.passThrough, [], s⟩
  else if req.hostname == "fonts.gstatic.com" then
    cacheFirstTier req s net
  else if req.hostname == "fonts.googleapis.com" then
    swrCssTier req s net
  else if strEndsWith req.pathname ".csv" || strIncludes req.pathname "/latest/" then
    networkFirstTier req s net
  else
    swrDefaultTier req s net

/-- A relative precache URL, resolved against the site origin (the origin
is abstract here: `sw.js` precaches same-origin relative URLs). -/
def precacheRequest (origin url : String) : Request :=
  ⟨origin, url⟩

/-- `cache.addAll(urls)`: fetch every URL; if any fetch rejects the whole
operation rejects (`none`) and nothing is stored, otherwise all pairs are
returned for insertion. -/
def addAllFetch (net : Request → Option Response) :
    List Request → Option (List (Request × Response))
  | [] => some []
  | r :: rs =>
    match net r with
    | none => none
    | some resp => (addAllFetch net rs).map (fun ps => (r, resp) :: ps)

/-- The install handler: `caches.open(CACHE_NAME)` then
`cache.addAll(PRECACHE_URLS)`; `event.waitUntil` makes installation
succeed only if every precache fetch-and-store succeeded (`none` =
installation fails). -/
def install (s : CacheStorage) (origin : String)
    (net : Request → Option Response) : Option CacheStorage :=
  match addAllFetch net (PRECACHE_URLS.map (precacheRequest origin)) with
  | none => none
  | some ps =>
    some (ps.foldl (fun st p => cachePutNamed st CACHE_NAME p.1 p.2)
      (cachesOpen s CACHE_NAME))

/-- Operations of the activate handler, in issue order. -/
inductive ActEvent where
  /-- `caches.delete(name)` for one old generation. -/
  | deleteCache (name : String)
  /-- `self.clients.claim()`. -/
  | claimClients
  deriving DecidableEq, Repr

/-- The activate handler: `caches.keys()`, delete every generation whose
name differs from `CACHE_NAME`, and only then (`.then`) claim the open
clients.  Returns the storage after the deletions and the trace. -/
def activate (s : CacheStorage) : CacheStorage × List ActEvent :=
  (s.filter (fun p => p.1 == CACHE_NAME),
   (((s.map Prod.fst).filter (fun k => !(k == CACHE_NAME))).map ActEvent.deleteCache)
     ++ [ActEvent.claimClients])

/-- Recognize the network-fetch-issued event. -/
def isFetchIssued : Event → Bool
  | .fetchIssued _ => true
  | _ => false

/-- Recognize the cache-lookup-settled event. -/
def isCacheSettled : Event → Bool
  | .cacheMatchSettled _ _ => true
  | _ => false

/-- Recognize the fetch-settled event. -/
def isFetchSettled : Event → Bool
  | .fetchSettled _ _ => true
  | _ => false

/-- Recognize the respond event. -/
def isRespond : Event → Bool
  | .respond _ => true
  | _ => false

/-- Both kinds of event occur in the trace and the first `p`-event strictly
precedes the first `q`-event. -/
def issuedBefore (tr : List Event) (p q : Event → Bool) : Bool :=
  match tr.findIdx? p, tr.findIdx? q with
  | some i, some j => decide (i < j)
  | _, _ => false

/-- How many network fetches the handler issued. -/
def fetchCount (tr : List Event) : Nat :=
  (tr.filter isFetchIssued).length

/-! ## Store lemmas -/

/-- Looking up after a `put`: the written key now maps to the written
value, every other key is untouched. -/
theorem matchReq_putEntry (c : CacheObj) (r : Request) (p : Response) (r' : Request) :
    matchReq (putEntry c r p) r' = if r = r' then some p else matchReq c r' := by
  induction c with
  | nil => simp [putEntry, matchReq]
  | cons hd tl ih =>
    obtain ⟨r0, p0⟩ := hd
    by_cases h0 : r0 = r
    · subst h0
      by_cases h' : r0 = r'
      · subst h'
        simp [putEntry, matchReq]
      · simp [putEntry, matchReq, h']
    · by_cases h' : r0 = r'
      · subst h'
        have hr : ¬ (r = r0) := fun hh => h0 hh.symm
        simp [putEntry, matchReq, h0, hr]
      · simp [putEntry, matchReq, h0, h', ih]

/-- Same statement one level up, for a named generation. -/
theorem namedLookup_cachePutNamed (s : CacheStorage) (n : String) (r : Request)
    (p : Response) (r' : Request) :
    namedLookup (cachePutNamed s n r p) n r' =
      if r = r' then some p else namedLookup s n r' := by
  induction s with
  | nil => simp [cachePutNamed, namedLookup, matchReq]
  | cons hd tl ih =>
    obtain ⟨n0, c0⟩ := hd
    by_cases h0 : n0 = n
    · subst h0
      simp [cachePutNamed, namedLookup, matchReq_putEntry]
    · simp [cachePutNamed, namedLookup, h0, ih]

/-- An entry visible in one named generation is visible to the
cross-generation `caches.match`. -/
theorem cachesMatch_isSome_of_namedLookup (s : CacheStorage) (n : String) (r : Request)
    (h : (namedLookup s n r).isSome = true) : (cachesMatch s r).isSome = true := by
  induction s with
  | nil => simp [namedLookup] at h
  | cons hd tl ih =>
    obtain ⟨n0, c0⟩ := hd
    by_cases h0 : n0 = n
    · subst h0
      simp [namedLookup] at h
      cases hm : matchReq c0 r with
      | none => rw [hm] at h; simp at h
      | some p => simp [cachesMatch, hm]
    · simp [namedLookup, h0] at h
      cases hm : matchReq c0 r with
      | none => simpa [cachesMatch, hm] using ih h
      | some p => simp [cachesMatch, hm]

/-- If no generation held the request, then after a `put` into any named
generation the cross-generation lookup finds exactly the new value. -/
theorem cachesMatch_cachePutNamed_self (s : CacheStorage) (n : String) (r : Request)
    (p : Response) (h : cachesMatch s r = none) :
    cachesMatch (cachePutNamed s n r p) r = some p := by
  induction s with
  | nil => simp [cachePutNamed, cachesMatch, matchReq]
  | cons hd tl ih =>
    obtain ⟨n0, c0⟩ := hd
    have hc : matchReq c0 r = none := by
      cases hm : matchReq c0 r with
      | none => rfl
      | some q => simp [cachesMatch, hm] at h
    have ht : cachesMatch tl r = none := by
      simpa [cachesMatch, hc] using h
    by_cases h0 : n0 = n
    · subst h0
      simp [cachePutNamed, cachesMatch, matchReq_putEntry]
    · simp [cachePutNamed, h0, cachesMatch, hc, ih ht]

/-- With pairwise-distinct generation names, at most one generation can
carry any given name. -/
theorem filter_name_length_le_one (s : CacheStorage) (n : String)
    (h : (s.map Prod.fst).Nodup) :
    (s.filter (fun p => p.1 == n)).length ≤ 1 := by
  induction s with
  | nil => simp
  | cons hd tl ih =>
    obtain ⟨n0, c0⟩ := hd
    rw [List.map_cons, List.nodup_cons] at h
    by_cases h0 : n0 = n
    · subst h0
      have hnil : tl.filter (fun p => p.1 == n0) = [] := by
        rw [List.filter_eq_nil_iff]
        intro p hp
        simp only [beq_iff_eq]
        intro he
        have hm : p.1 ∈ tl.map Prod.fst := List.mem_map_of_mem Prod.fst hp
        rw [he] at hm
        exact h.1 hm
      simp [List.filter_cons, hnil]
    · simp only [List.filter_cons, beq_iff_eq, h0, if_false]
      exact ih h.2

/-- A successful `addAll` fetched exactly the requested URLs, in order. -/
theorem addAllFetch_map_fst (net : Request → Option Response) (rs : List Request)
    (ps : List (Request × Response)) (h : addAllFetch net rs = some ps) :
    ps.map Prod.fst = rs := by
  induction rs generalizing ps with
  | nil =>
    simp [addAllFetch] at h
    subst h
    simp
  | cons r rs ih =>
    cases hn : net r with
    | none => simp [addAllFetch, hn] at h
    | some resp =>
      simp [addAllFetch, hn, Option.map_eq_some'] at h
      obtain ⟨qs, hqs, hps⟩ := h
      subst hps
      simp [ih qs hqs]

/-- If any single fetch of an `addAll` rejects, the whole `addAll`
rejects. -/
theorem addAllFetch_none (net : Request → Option Response) (rs : List Request)
    (r : Request) (hr : r ∈ rs) (hn : net r = none) :
    addAllFetch net rs = none := by
  induction rs with
  | nil => cases hr
  | cons r0 rs ih =>
    cases hr with
    | head => simp [addAllFetch, hn]
    | tail _ h =>
      cases hn0 : net r0 with
      | none => simp [addAllFetch, hn0]
      | some resp => simp [addAllFetch, hn0, ih h]

/-- A visible entry stays visible through any further sequence of puts
into the same generation. -/
theorem namedLookup_foldl_preserve (ps : List (Request × Response))
    (st : CacheStorage) (n : String) (r : Request)
    (h : (namedLookup st n r).isSome = true) :
    (namedLookup (ps.foldl (fun acc q => cachePutNamed acc n q.1 q.2) st) n r).isSome
      = true := by
  induction ps generalizing st with
  | nil => simpa using h
  | cons q ps ih =>
    simp only [List.foldl_cons]
    apply ih
    rw [namedLookup_cachePutNamed]
    by_cases hq : q.1 = r
    · simp [hq]
    · simpa [hq] using h

/-- After folding a batch of puts, every written key is visible in the
target generation. -/
theorem namedLookup_foldl_mem (ps : List (Request × Response))
    (st : CacheStorage) (n : String) (r : Request) (h : r ∈ ps.map Prod.fst) :
    (namedLookup (ps.foldl (fun acc q => cachePutNamed acc n q.1 q.2) st) n r).isSome
      = true := by
  induction ps generalizing st with
  | nil => simp at h
  | cons q ps ih =>
    simp only [List.map_cons, List.mem_cons] at h
    simp only [List.foldl_cons]
    cases h with
    | inl h =>
      apply namedLookup_foldl_preserve
      rw [namedLookup_cachePutNamed]
      simp [h]
    | inr h => exact ih (cachePutNamed st n q.1 q.2) h

/-! ## Per-tier helper lemmas about write targets -/

/-- Every `cache.put` of the cache-first tier targets `CACHE_NAME`. -/
theorem cachePut_name_cacheFirst (req : Request) (s : CacheStorage)
    (net : Request → Option Response) (n : String) (r : Request) (p : Response)
    (h : Event.cachePut n r p ∈ (cacheFirstTier req s net).trace) : n = CACHE_NAME := by
  cases hm : cachesMatch s req with
  | some c => simp [cacheFirstTier, hm] at h
  | none =>
    cases hn : net req with
    | some resp =>
      simp [cacheFirstTier, hm, hn] at h
      exact h.1
    | none => simp [cacheFirstTier, hm, hn] at h

/-- Every `cache.put` of the stylesheet stale-while-revalidate tier targets
`CACHE_NAME`. -/
theorem cachePut_name_swrCss (req : Request) (s : CacheStorage)
    (net : Request → Option Response) (n : String) (r : Request) (p : Response)
    (h : Event.cachePut n r p ∈ (swrCssTier req s net).trace) : n = CACHE_NAME := by
  cases hm : cachesMatch s req <;> cases hn : net req <;>
    simp [swrCssTier, hm, hn] at h <;> exact h.1

/-- Every `cache.put` of the network-first tier targets `CACHE_NAME`. -/
theorem cachePut_name_networkFirst (req : Request) (s : CacheStorage)
    (net : Request → Option Response) (n : String) (r : Request) (p : Response)
    (h : Event.cachePut n r p ∈ (networkFirstTier req s net).trace) : n = CACHE_NAME := by
  cases hn : net req with
  | some resp =>
    simp [networkFirstTier, hn] at h
    exact h.1
  | none =>
    cases hm : cachesMatch s req <;> simp [networkFirstTier, hn, hm] at h

/-- Every `cache.put` of the default stale-while-revalidate tier targets
`CACHE_NAME`. -/
theorem cachePut_name_swrDefault (req : Request) (s : CacheStorage)
    (net : Request → Option Response) (n : String) (r : Request) (p : Response)
    (h : Event.cachePut n r p ∈ (swrDefaultTier req s net).trace) : n = CACHE_NAME := by
  cases hm : cachesMatch s req <;> cases hn : net req <;>
    simp [swrDefaultTier, hm, hn] at h <;> exact h.1

/-! ## Claims -/

/-- Claim C1, as stated, is false: in both stale-while-revalidate tiers the
`fetch` call sits inside the `caches.match(...).then(cached => ...)`
continuation, so the network fetch is issued only after the cache lookup
has settled.  At the concrete inputs below (one per tier) the trace shows
the cache-lookup-settled event strictly before the fetch-issued event, and
the fetch-issued event is not before the cache-settled one. -/
theorem claim_C1_counterexample :
    (issuedBefore (handleFetch ⟨"example.com", "/app.js"⟩ []
        (fun _ => some ⟨200, "ok"⟩)).trace isFetchIssued isCacheSettled = false ∧
      issuedBefore (handleFetch ⟨"example.com", "/app.js"⟩ []
        (fun _ => some ⟨200, "ok"⟩)).trace isCacheSettled isFetchIssued = true) ∧
    (issuedBefore (handleFetch ⟨"fonts.googleapis.com", "/css2"⟩ []
        (fun _ => some ⟨200, "ok"⟩)).trace isFetchIssued isCacheSettled = false ∧
      issuedBefore (handleFetch ⟨"fonts.googleapis.com", "/css2"⟩ []
        (fun _ => some ⟨200, "ok"⟩)).trace isCacheSettled isFetchIssued = true) := by
  decide

/-- Claim C1 (amended): in both stale-while-revalidate tiers the network
fetch is initiated only after the cache lookup settles — it is started
inside the cache-lookup continuation, not in parallel with it.  This holds
for every request, storage and network behaviour. -/
theorem claim_C1_amended (req : Request) (s : CacheStorage)
    (net : Request → Option Response) :
    issuedBefore (swrCssTier req s net).trace isCacheSettled isFetchIssued = true ∧
    issuedBefore (swrDefaultTier req s net).trace isCacheSettled isFetchIssued = true := by
  refine ⟨?_, ?_⟩
  · unfold swrCssTier
    cases cachesMatch s req <;> cases net req <;> rfl
  · unfold swrDefaultTier
    cases cachesMatch s req <;> cases net req <;> rfl

/-- Claim C2, as stated, is false: the cache-first tier and the stylesheet
stale-while-revalidate tier have no `.catch`, so with an empty cache and a
rejecting fetch the handler's result is a rejection. -/
theorem claim_C2_counterexample :
    (handleFetch ⟨"fonts.gstatic.com", "/s/font.woff2"⟩ []
      (fun _ => none)).outcome = .rejected ∧
    (handleFetch ⟨"fonts.googleapis.com", "/css2"⟩ []
      (fun _ => none)).outcome = .rejected := by
  decide

/-- Claim C2 (amended): when the cache holds an entry, a failed fetch is
swallowed in the cache-first and both stale-while-revalidate tiers and the
cached value is returned; the default tier also swallows a failure on a
cache miss (resolving with no response); but in the cache-first and
stylesheet tiers a failed fetch with no cached entry surfaces as a
rejected result. -/
theorem claim_C2_amended (req : Request) (s : CacheStorage)
    (net : Request → Option Response) (hnet : net req = none) :
    (∀ c, cachesMatch s req = some c →
      (cacheFirstTier req s net).outcome = .ok c ∧
      (swrCssTier req s net).outcome = .ok c ∧
      (swrDefaultTier req s net).outcome = .ok c) ∧
    (cachesMatch s req = none →
      (swrDefaultTier req s net).outcome = .noResponse ∧
      (cacheFirstTier req s net).outcome = .rejected ∧
      (swrCssTier req s net).outcome = .rejected) := by
  constructor
  · intro c hc
    refine ⟨?_, ?_, ?_⟩ <;> simp [cacheFirstTier, swrCssTier, swrDefaultTier, hc, hnet]
  · intro hc
    refine ⟨?_, ?_, ?_⟩ <;> simp [cacheFirstTier, swrCssTier, swrDefaultTier, hc, hnet]

/-- Witness for the amended C2 at a concrete input: default tier, empty
cache, rejecting fetch resolves with no response. -/
theorem claim_C2_amended_witness :
    (swrDefaultTier ⟨"example.com", "/a.js"⟩ [] (fun _ => none)).outcome
      = .noResponse :=
  ((claim_C2_amended ⟨"example.com", "/a.js"⟩ [] (fun _ => none) rfl).2 rfl).1

/-- Claim C3: a request whose hostname is exactly `gc.zgo.at` or ends with
`.goatcounter.com` is bypassed: no `respondWith`, an empty operation trace
(so no cache read and no write), and the storage is returned unchanged —
the caller gets the network layer's behaviour verbatim, failures
included. -/
theorem claim_C3 (req : Request) (s : CacheStorage) (net : Request → Option Response)
    (h : (req.hostname == "gc.zgo.at"
          || strEndsWith req.hostname ".goatcounter.com") = true) :
    handleFetch req s net = ⟨.passThrough, [], s⟩ := by
  simp [handleFetch, h]

/-- Witness for C3 at a concrete analytics request. -/
theorem claim_C3_witness :
    handleFetch ⟨"gc.zgo.at", "/count.js"⟩ [] (fun _ => none)
      = ⟨.passThrough, [], []⟩ :=
  claim_C3 ⟨"gc.zgo.at", "/count.js"⟩ [] (fun _ => none) (by decide)

/-- Claim C4: a request reaching the network-first tier (path ends in
`.csv` or contains `/latest/`, earlier tiers not matching) fetches first;
on success it stores a copy under that exact request identity in
`CACHE_NAME` and returns the network response; on failure it returns the
stored entry for that exact request identity, or no response when none
exists. -/
theorem claim_C4 (req : Request) (s : CacheStorage) (net : Request → Option Response)
    (hb : (req.hostname == "gc.zgo.at"
          || strEndsWith req.hostname ".goatcounter.com") = false)
    (hg : (req.hostname == "fonts.gstatic.com") = false)
    (ha : (req.hostname == "fonts.googleapis.com") = false)
    (hp : (strEndsWith req.pathname ".csv"
          || strIncludes req.pathname "/latest/") = true) :
    handleFetch req s net = networkFirstTier req s net ∧
    (∀ resp, net req = some resp →
      (networkFirstTier req s net).outcome = .ok resp ∧
      namedLookup (networkFirstTier req s net).store CACHE_NAME req = some resp) ∧
    (net req = none →
      (∀ c, cachesMatch s req = some c →
        (networkFirstTier req s net).outcome = .ok c ∧
        (networkFirstTier req s net).store = s) ∧
      (cachesMatch s req = none →
        (networkFirstTier req s net).outcome = .noResponse ∧
        (networkFirstTier req s net).store = s)) := by
  refine ⟨by simp [handleFetch, hb, hg, ha, hp], ?_, ?_⟩
  · intro resp hresp
    simp [networkFirstTier, hresp, namedLookup_cachePutNamed]
  · intro hresp
    constructor
    · intro c hc
      simp [networkFirstTier, hresp, hc]
    · intro hc
      simp [networkFirstTier, hresp, hc]

/-- Witness for C4 at a concrete `/latest/` request with a live network. -/
theorem claim_C4_witness :
    (networkFirstTier ⟨"hasan1239.github.io", "/latest/img.png"⟩ []
      (fun _ => some ⟨200, "png"⟩)).outcome = .ok ⟨200, "png"⟩ :=
  ((claim_C4 ⟨"hasan1239.github.io", "/latest/img.png"⟩ []
      (fun _ => some ⟨200, "png"⟩) (by decide) (by decide) (by decide)
      (by decide)).2.1 ⟨200, "png"⟩ rfl).1

/-- Claim C5: installation succeeds only if every precache fetch succeeds
(any single failure fails the whole installation), and after a successful
install the generation named by the current version tag holds an entry for
every URL of the precache list. -/
theorem claim_C5 (s : CacheStorage) (origin : String)
    (net : Request → Option Response) :
    (∀ s', install s origin net = some s' →
      ∀ u ∈ PRECACHE_URLS,
        (namedLookup s' CACHE_NAME (precacheRequest origin u)).isSome = true) ∧
    (∀ u ∈ PRECACHE_URLS, net (precacheRequest origin u) = none →
      install s origin net = none) := by
  constructor
  · intro s' hs' u hu
    unfold install at hs'
    cases hadd : addAllFetch net (PRECACHE_URLS.map (precacheRequest origin)) with
    | none => rw [hadd] at hs'; simp at hs'
    | some ps =>
      rw [hadd] at hs'
      simp only [Option.some.injEq] at hs'
      subst hs'
      apply namedLookup_foldl_mem
      rw [addAllFetch_map_fst net _ ps hadd]
      exact List.mem_map_of_mem (precacheRequest origin) hu
  · intro u hu hn
    unfold install
    rw [addAllFetch_none net _ (precacheRequest origin u)
      (List.mem_map_of_mem (precacheRequest origin) hu) hn]

/-- Witness for C5: a fully successful install leaves the precached
`./index.html` visible in the `CACHE_NAME` generation. -/
theorem claim_C5_witness :
    (namedLookup ((install [] "site" (fun _ => some ⟨200, "x"⟩)).getD [])
      CACHE_NAME (precacheRequest "site" "./index.html")).isSome = true :=
  (claim_C5 [] "site" (fun _ => some ⟨200, "x"⟩)).1
    ((install [] "site" (fun _ => some ⟨200, "x"⟩)).getD []) (by decide)
    "./index.html" (by decide)

/-- Claim C6: activation keeps exactly the generations named by the
current version tag (so, with distinct generation names, at most one),
and its trace is all the deletions of differently-named generations
followed by — only then — the claim over open clients. -/
theorem claim_C6 (s : CacheStorage) :
    (∀ p ∈ (activate s).1, p.1 = CACHE_NAME) ∧
    ((s.map Prod.fst).Nodup → (activate s).1.length ≤ 1) ∧
    (∃ dels, (activate s).2 = dels ++ [ActEvent.claimClients] ∧
      ∀ e ∈ dels, ∃ k, k ≠ CACHE_NAME ∧ e = ActEvent.deleteCache k) := by
  refine ⟨?_, ?_, ?_⟩
  · intro p hp
    simp only [activate, List.mem_filter, beq_iff_eq] at hp
    exact hp.2
  · intro h
    exact filter_name_length_le_one s CACHE_NAME h
  · refine ⟨((s.map Prod.fst).filter
      (fun k => !(k == CACHE_NAME))).map ActEvent.deleteCache, rfl, ?_⟩
    intro e he
    simp only [List.mem_map, List.mem_filter, Bool.not_eq_eq_eq_not, Bool.not_true,
      beq_eq_false_iff_ne, ne_eq] at he
    obtain ⟨k, ⟨_, hk2⟩, hke⟩ := he
    exact ⟨k, hk2, hke.symm⟩

/-- Witness for C6: activating over two generations retains at most the
current one. -/
theorem claim_C6_witness :
    (activate [("salahdaily-v0", []), ("salahdaily-v1", [])]).1.length ≤ 1 :=
  (claim_C6 [("salahdaily-v0", []), ("salahdaily-v1", [])]).2.1 (by decide)

/-- Claim C7: any request whose hostname is `fonts.gstatic.com` gets the
cache-first tier (whatever its path — the precedence order puts this tier
before the path-based network-first tier); on a hit the cached copy is
returned with no network fetch at all and the store unchanged; on a miss
the network response is returned and a copy stored under `CACHE_NAME`, and
a second identical request is then answered without issuing a second
fetch. -/
theorem claim_C7 (req : Request) (s : CacheStorage)
    (net : Request → Option Response) (h : req.hostname = "fonts.gstatic.com") :
    handleFetch req s net = cacheFirstTier req s net ∧
    (∀ c, cachesMatch s req = some c →
      (cacheFirstTier req s net).outcome = .ok c ∧
      fetchCount (cacheFirstTier req s net).trace = 0 ∧
      (cacheFirstTier req s net).store = s) ∧
    (∀ resp, cachesMatch s req = none → net req = some resp →
      (cacheFirstTier req s net).outcome = .ok resp ∧
      namedLookup (cacheFirstTier req s net).store CACHE_NAME req = some resp ∧
      fetchCount (handleFetch req (cacheFirstTier req s net).store net).trace = 0) := by
  have hdisp : ∀ s1, handleFetch req s1 net = cacheFirstTier req s1 net := by
    intro s1
    obtain ⟨hn, pn⟩ := req
    simp only at h
    subst h
    rfl
  refine ⟨hdisp s, ?_, ?_⟩
  · intro c hc
    refine ⟨by simp [cacheFirstTier, hc], ?_, by simp [cacheFirstTier, hc]⟩
    simp [cacheFirstTier, hc, fetchCount, isFetchIssued]
  · intro resp hc hresp
    have hstore : (cacheFirstTier req s net).store
        = cachePutNamed s CACHE_NAME req resp := by
      simp [cacheFirstTier, hc, hresp]
    refine ⟨by simp [cacheFirstTier, hc, hresp], ?_, ?_⟩
    · rw [hstore]
      simp [namedLookup_cachePutNamed]
    · rw [hdisp, hstore]
      have hm : cachesMatch (cachePutNamed s CACHE_NAME req resp) req = some resp :=
        cachesMatch_cachePutNamed_self s CACHE_NAME req resp hc
      simp [cacheFirstTier, hm, fetchCount, isFetchIssued]

/-- Witness for C7: a `fonts.gstatic.com` request whose path even ends in
`.csv` still gets the cache-first tier. -/
theorem claim_C7_witness :
    handleFetch ⟨"fonts.gstatic.com", "/x.csv"⟩ [] (fun _ => some ⟨200, "f"⟩)
      = cacheFirstTier ⟨"fonts.gstatic.com", "/x.csv"⟩ [] (fun _ => some ⟨200, "f"⟩) :=
  (claim_C7 ⟨"fonts.gstatic.com", "/x.csv"⟩ [] (fun _ => some ⟨200, "f"⟩) rfl).1

/-- Claim C8: in both stale-while-revalidate tiers, when the store holds
an entry the handler responds with it before the network fetch settles
(the respond event precedes the fetch-settled event in the trace), and
whenever the detached fetch resolves, the `CACHE_NAME` generation
afterwards holds the new response under that request identity. -/
theorem claim_C8 (req : Request) (s : CacheStorage) (net : Request → Option Response)
    (c : Response) (hc : cachesMatch s req = some c) :
    ((swrCssTier req s net).outcome = .ok c ∧
      issuedBefore (swrCssTier req s net).trace isRespond isFetchSettled = true ∧
      ∀ resp, net req = some resp →
        namedLookup (swrCssTier req s net).store CACHE_NAME req = some resp) ∧
    ((swrDefaultTier req s net).outcome = .ok c ∧
      issuedBefore (swrDefaultTier req s net).trace isRespond isFetchSettled = true ∧
      ∀ resp, net req = some resp →
        namedLookup (swrDefaultTier req s net).store CACHE_NAME req = some resp) := by
  constructor
  · refine ⟨?_, ?_, ?_⟩
    · unfold swrCssTier
      rw [hc]
      cases net req <;> rfl
    · unfold swrCssTier
      rw [hc]
      cases net req <;> rfl
    · intro resp hresp
      unfold swrCssTier
      rw [hc, hresp]
      simp [namedLookup_cachePutNamed]
  · refine ⟨?_, ?_, ?_⟩
    · unfold swrDefaultTier
      rw [hc]
      cases net req <;> rfl
    · unfold swrDefaultTier
      rw [hc]
      cases net req <;> rfl
    · intro resp hresp
      unfold swrDefaultTier
      rw [hc, hresp]
      simp [namedLookup_cachePutNamed]

/-- Witness for C8: with a stored entry and a fresher network response,
the default tier still answers with the stored entry. -/
theorem claim_C8_witness :
    (swrDefaultTier ⟨"example.com", "/a.js"⟩
      [("salahdaily-v1", [(⟨"example.com", "/a.js"⟩, ⟨200, "old"⟩)])]
      (fun _ => some ⟨200, "new"⟩)).outcome = .ok ⟨200, "old"⟩ :=
  ((claim_C8 ⟨"example.com", "/a.js"⟩
      [("salahdaily-v1", [(⟨"example.com", "/a.js"⟩, ⟨200, "old"⟩)])]
      (fun _ => some ⟨200, "new"⟩) ⟨200, "old"⟩ (by decide)).2).1

/-- Claim C9: in every caching tier, whatever response the fetch resolves
with is stored (`resp` is arbitrary here — nothing inspects its status, so
a 404 or 500 is cached exactly like a 200); in the cache-first tier the
fetch only happens on a miss, and the response stored then — error or not
— is served to the next identical request without a new fetch. -/
theorem claim_C9 (req : Request) (s : CacheStorage) (net : Request → Option Response)
    (resp : Response) (hresp : net req = some resp) :
    (cachesMatch s req = none →
      namedLookup (cacheFirstTier req s net).store CACHE_NAME req = some resp) ∧
    namedLookup (swrCssTier req s net).store CACHE_NAME req = some resp ∧
    namedLookup (swrDefaultTier req s net).store CACHE_NAME req = some resp ∧
    namedLookup (networkFirstTier req s net).store CACHE_NAME req = some resp ∧
    (cachesMatch s req = none →
      (cacheFirstTier req (cacheFirstTier req s net).store net).outcome = .ok resp ∧
      fetchCount (cacheFirstTier req (cacheFirstTier req s net).store net).trace
        = 0) := by
  refine ⟨?_, ?_, ?_, ?_, ?_⟩
  · intro hc
    simp [cacheFirstTier, hc, hresp, namedLookup_cachePutNamed]
  · unfold swrCssTier
    rw [hresp]
    cases cachesMatch s req <;> simp [namedLookup_cachePutNamed]
  · unfold swrDefaultTier
    rw [hresp]
    cases cachesMatch s req <;> simp [namedLookup_cachePutNamed]
  · unfold networkFirstTier
    rw [hresp]
    simp [namedLookup_cachePutNamed]
  · intro hc
    have hstore : (cacheFirstTier req s net).store
        = cachePutNamed s CACHE_NAME req resp := by
      simp [cacheFirstTier, hc, hresp]
    rw [hstore]
    have hm : cachesMatch (cachePutNamed s CACHE_NAME req resp) req = some resp :=
      cachesMatch_cachePutNamed_self s CACHE_NAME req resp hc
    constructor
    · simp [cacheFirstTier, hm]
    · simp [cacheFirstTier, hm, fetchCount, isFetchIssued]

/-- Witness for C9: a 404 response is cached like any other. -/
theorem claim_C9_witness :
    namedLookup (networkFirstTier ⟨"hasan1239.github.io", "/d.csv"⟩ []
        (fun _ => some ⟨404, "not found"⟩)).store
      CACHE_NAME ⟨"hasan1239.github.io", "/d.csv"⟩ = some ⟨404, "not found"⟩ :=
  (claim_C9 ⟨"hasan1239.github.io", "/d.csv"⟩ []
    (fun _ => some ⟨404, "not found"⟩) ⟨404, "not found"⟩ rfl).2.2.2.1

/-- Claim C10: every `cache.put` the fetch router ever issues targets the
generation named `CACHE_NAME` (= `salahdaily-v1`), whereas every lookup is
the cross-generation `caches.match`; so while the current generation lacks
an entry that an older generation still holds, the handlers answer from
the stale generation. -/
theorem claim_C10 (req : Request) (s : CacheStorage)
    (net : Request → Option Response) :
    CACHE_NAME = "salahdaily-v1" ∧
    (∀ n r p, Event.cachePut n r p ∈ (handleFetch req s net).trace →
      n = CACHE_NAME) ∧
    (∀ c, namedLookup s CACHE_NAME req = none → cachesMatch s req = some c →
      (cacheFirstTier req s net).outcome = .ok c ∧
      (swrDefaultTier req s net).outcome = .ok c) := by
  refine ⟨rfl, ?_, ?_⟩
  · intro n r p h
    unfold handleFetch at h
    split at h
    · simp at h
    · split at h
      · exact cachePut_name_cacheFirst req s net n r p h
      · split at h
        · exact cachePut_name_swrCss req s net n r p h
        · split at h
          · exact cachePut_name_networkFirst req s net n r p h
          · exact cachePut_name_swrDefault req s net n r p h
  · intro c hcur hall
    constructor
    · simp [cacheFirstTier, hall]
    · unfold swrDefaultTier
      rw [hall]
      cases net req <;> rfl

/-- Witness for C10: the current generation is empty but an older
generation still holds the request, and the lookup is answered from the
stale generation. -/
theorem claim_C10_witness :
    (cacheFirstTier ⟨"fonts.gstatic.com", "/f.woff2"⟩
      [("salahdaily-v1", []),
       ("salahdaily-v0", [(⟨"fonts.gstatic.com", "/f.woff2"⟩, ⟨200, "stale"⟩)])]
      (fun _ => none)).outcome = .ok ⟨200, "stale"⟩ :=
  ((claim_C10 ⟨"fonts.gstatic.com", "/f.woff2"⟩
      [("salahdaily-v1", []),
       ("salahdaily-v0", [(⟨"fonts.gstatic.com", "/f.woff2"⟩, ⟨200, "stale"⟩)])]
      (fun _ => none)).2.2 ⟨200, "stale"⟩ (by decide) (by decide)).1
